import Mathlib

/-!
Shallow embedding of `routecheck` (src/routecheck/main.cpp).

The program parses command-line flags, resolves a destination and a list of
candidate gateway addresses, sends an initial ICMP reachability probe at
`ttl = max_hops`, then (when gateways are configured) sweeps TTLs
`1 .. max_hops - 1`, marking each gateway whose 32-bit address equals a
responder address seen in a sweep reply.

Modelling conventions:
* IPv4 addresses are `Nat` values (the 32-bit `S_addr` word; comparisons in
  the source are exact 32-bit equality, so the byte order is irrelevant).
* The network is an oracle `net : Int → Option Nat`: for the probe sent at a
  given TTL, `none` models a timeout of `IcmpSendEcho` and `some a` models a
  reply whose source address is `a` (either a time-exceeded reply from an
  intermediate hop or the destination's own echo reply).
* An out-of-bounds `std::vector::operator[]` access in the argument loop is
  undefined behaviour; the parser returns `none` exactly when such an access
  happens.
* The truncation of the `int` TTL into the `UCHAR` field `ip_options.Ttl` is
  not modelled; probe events carry the loop's `int` value.
* Console output is not modelled; the externally visible outcome is the exit
  code, the final node states (from which the report lines are printed) and
  the probe/close event trace.
-/

namespace Routecheck

/-- NETWORK_NODE from main.cpp: hostname, 32-bit IPv4 address, replied flag. -/
structure NETWORK_NODE where
  hostname : String
  ip : Nat
  replied : Bool
deriving DecidableEq, Repr

/-- Split a character list at every dot, keeping empty components, as the
dotted-quad scanner of `InetPtonA(AF_INET, …)` sees them. -/
def splitDots : List Char → List (List Char)
  | [] => [[]]
  | c :: rest =>
    if c = '.' then [] :: splitDots rest
    else
      match splitDots rest with
      | [] => [[c]]
      | p :: ps => (c :: p) :: ps

/-- Parse one decimal octet in the strict form accepted by
`InetPtonA(AF_INET, …)`: one to three digits, no leading zero, value ≤ 255. -/
def parseOctet (cs : List Char) : Option Nat :=
  if cs = [] then none
  else if cs.all Char.isDigit ∧ cs.length ≤ 3 ∧ (1 < cs.length → cs.head? ≠ some '0') then
    let v := cs.foldl (fun acc c => acc * 10 + (c.toNat - 48)) 0
    if v ≤ 255 then some v else none
  else none

/-- InetPtonA(AF_INET, s, &addr): strict dotted-quad IPv4 parse; `some` is
return value 1 with the 32-bit address, `none` is failure (buffer untouched). -/
def inet_pton (s : String) : Option Nat :=
  match (splitDots s.data).mapM parseOctet with
  | some [a, b, c, d] => some (a * 16777216 + b * 65536 + c * 256 + d)
  | _ => none

/-- C `atoi` digit accumulator: consume leading decimal digits. -/
def atoiDigits : List Char → Int → Int
  | c :: rest, acc => if c.isDigit then atoiDigits rest (acc * 10 + (c.toNat - 48)) else acc
  | [], acc => acc

/-- C `atoi`: skip leading whitespace, optional sign, then a digit prefix;
0 when no digits are found. -/
def atoi (s : String) : Int :=
  let cs := s.data.dropWhile (fun c => c == ' ' || c == '\t' || c == '\n' || c == '\r')
  match cs with
  | '-' :: rest => - atoiDigits rest 0
  | '+' :: rest => atoiDigits rest 0
  | _ => atoiDigits cs 0

/-- Parser state: the locals of `main` mutated by the argument loop. -/
structure ParseState where
  verbose : Bool
  destination : NETWORK_NODE
  gateways : List NETWORK_NODE
  timeout : Int
  max_hops : Int
deriving DecidableEq, Repr

/-- Body of the `-d` branch (lines 67–82): `InetPtonA` writes the parsed
address into `destination.ip` on success and the hostname is recorded; on
failure the destination is left unchanged (only a verbose notice is printed). -/
def applyDest (st : ParseState) (v : String) : ParseState :=
  match inet_pton v with
  | none => st
  | some ip => { st with destination := ⟨v, ip, st.destination.replied⟩ }

/-- Body of the `-gw` branch (lines 83–100): a fresh node `{ "", NULL, false }`
receives the parsed address and hostname on success; on failure it keeps the
empty hostname and zero address. Either way `push_back(node)` runs. -/
def applyGw (st : ParseState) (v : String) : ParseState :=
  match inet_pton v with
  | none => { st with gateways := st.gateways ++ [⟨"", 0, false⟩] }
  | some ip => { st with gateways := st.gateways ++ [⟨v, ip, false⟩] }

/-- The argument loop of main.cpp (lines 63–113), one step per loop
iteration. `none` models an out-of-bounds `args[a + 1]` access. Note the
source's `-ttl`/`-timeout` handling: `a++` happens before
`atoi(args[a + 1])`, so the assigned value comes from the token one past the
flag's argument (`w` below), and the loop resumes at that token. -/
def parseLoop : List String → ParseState → Option ParseState
  | [], st => some st
  | arg :: rest, st =>
    if arg = "-v" then parseLoop rest { st with verbose := true }
    else if arg = "-help" then parseLoop rest st
    else if arg = "-d" then
      match rest with
      | [] => none
      | v :: rest2 => parseLoop rest2 (applyDest st v)
    else if arg = "-gw" then
      match rest with
      | [] => none
      | v :: rest2 => parseLoop rest2 (applyGw st v)
    else if arg = "-ttl" then
      match rest with
      | [] => none
      | [_] => none
      | _ :: w :: rest3 => parseLoop (w :: rest3) { st with max_hops := atoi w }
    else if arg = "-timeout" then
      match rest with
      | [] => none
      | [_] => none
      | _ :: w :: rest3 => parseLoop (w :: rest3) { st with timeout := atoi w }
    else parseLoop rest st

/-- Argument parsing: the `-v` pre-scan (lines 60–61) followed by the
argument loop, starting from the declared defaults (lines 46–50). -/
def parseArgs (args : List String) : Option ParseState :=
  parseLoop args
    { verbose := args.any (fun y => y == "-v")
      destination := ⟨"", 0, false⟩
      gateways := []
      timeout := 10000
      max_hops := 30 }

/-- Observable events of a run: an ICMP echo probe sent at a TTL, and the
closing of the ICMP handle. -/
inductive Event where
  | probe (ttl : Int)
  | closeHandle
deriving DecidableEq, Repr

/-- Result of a run: exit code, final destination node, final gateway list
(in input order, as reported), and the event trace. -/
structure RunResult where
  exitCode : Nat
  destination : NETWORK_NODE
  gateways : List NETWORK_NODE
  events : List Event
deriving DecidableEq, Repr

/-- TTL values of the hop sweep `for (int i = 1; i < max_hops; i++)`. -/
def sweepTtls (m : Int) : List Int :=
  (List.range (m - 1).toNat).map (fun (k : Nat) => (k : Int) + 1)

/-- Gateway matching (lines 186–193): every gateway whose 32-bit address
equals the observed responder address gets its replied flag set. -/
def observe (gws : List NETWORK_NODE) (addr : Nat) : List NETWORK_NODE :=
  gws.map (fun g => if g.ip = addr then { g with replied := true } else g)

/-- One sweep iteration's effect on the gateway list: a timeout leaves it
unchanged, a reply is matched against every gateway. -/
def sweepStep (net : Int → Option Nat) (gws : List NETWORK_NODE) (t : Int) : List NETWORK_NODE :=
  match net t with
  | none => gws
  | some addr => observe gws addr

/-- The run after successful argument parsing (lines 115–205): destination
check, ICMP handle creation, reachability probe at `ttl = max_hops`, then the
hop sweep when gateways are configured. -/
def runAfterParse (st : ParseState) (icmpOk : Bool) (net : Int → Option Nat) : RunResult :=
  if st.destination.hostname = "" then ⟨2, st.destination, st.gateways, []⟩
  else if icmpOk = false then ⟨3, st.destination, st.gateways, []⟩
  else
    match net st.max_hops with
    | none => ⟨4, st.destination, st.gateways, [Event.probe st.max_hops, Event.closeHandle]⟩
    | some _ =>
      let dest := { st.destination with replied := true }
      if st.gateways.length = 0 then
        ⟨0, dest, st.gateways, [Event.probe st.max_hops, Event.closeHandle]⟩
      else
        ⟨0, dest, (sweepTtls st.max_hops).foldl (sweepStep net) st.gateways,
          Event.probe st.max_hops :: (sweepTtls st.max_hops).map Event.probe
            ++ [Event.closeHandle]⟩

/-- Whole program `main`: `argc < 2` check, argument parsing, then the run.
`args` is `argv[1..]`; `icmpOk` is whether `IcmpCreateFile` succeeds; `none`
models undefined behaviour in the argument loop. -/
def runMain (args : List String) (icmpOk : Bool) (net : Int → Option Nat) : Option RunResult :=
  if args.length = 0 then some ⟨1, ⟨"", 0, false⟩, [], []⟩
  else (parseArgs args).map (fun st => runAfterParse st icmpOk net)

/-- Predicate: the probe at TTL `t` got a reply whose source address is `ip`. -/
def hitAt (net : Int → Option Nat) (ip : Nat) (t : Int) : Bool :=
  match net t with
  | some a => ip == a
  | none => false

/-- Number of `-gw` tokens that the argument loop processes as flags (a token
consumed as the value of another flag does not count). Mirrors the loop's
token consumption. -/
def gwFlagCount : List String → Nat
  | [] => 0
  | arg :: rest =>
    if arg = "-v" then gwFlagCount rest
    else if arg = "-help" then gwFlagCount rest
    else if arg = "-d" then
      match rest with
      | [] => 0
      | _ :: rest2 => gwFlagCount rest2
    else if arg = "-gw" then
      match rest with
      | [] => 0
      | _ :: rest2 => gwFlagCount rest2 + 1
    else if arg = "-ttl" then
      match rest with
      | [] => 0
      | _ :: rest2 => gwFlagCount rest2
    else if arg = "-timeout" then
      match rest with
      | [] => 0
      | _ :: rest2 => gwFlagCount rest2
    else gwFlagCount rest

/-- Test network: only the full-route probe at TTL 30 is answered, by
10.0.0.1 (= 167772161); every sweep probe times out. -/
def netOnlyFinal : Int → Option Nat :=
  fun t => if t = 30 then some 167772161 else none

/-- Test network: no probe is ever answered. -/
def netSilent : Int → Option Nat := fun _ => none

/-- Test network: every probe is answered by 10.0.0.1 (= 167772161). -/
def netAlways : Int → Option Nat := fun _ => some 167772161

/-- Test network: hop 3 answers as 10.0.0.2 (= 167772162), the full-route
probe at TTL 4 is answered by the destination 10.0.0.1 (= 167772161). -/
def netHop3 : Int → Option Nat :=
  fun t => if t = 3 then some 167772162 else if t = 4 then some 167772161 else none

/-- Argument list giving max_hops 4 (via the parser's off-by-one: the value
is taken from the token after `x`), destination 10.0.0.1 and the same
gateway 10.0.0.2 twice. -/
def argsTwoGw4 : List String :=
  ["-ttl", "x", "4", "-d", "10.0.0.1", "-gw", "10.0.0.2", "-gw", "10.0.0.2"]

/-- Parse result of `-d 10.0.0.1`. -/
def stDestOnly : ParseState :=
  ⟨false, ⟨"10.0.0.1", 167772161, false⟩, [], 10000, 30⟩

/-- Parse result of `argsTwoGw4`. -/
def stTwoGw4 : ParseState :=
  ⟨false, ⟨"10.0.0.1", 167772161, false⟩,
    [⟨"10.0.0.2", 167772162, false⟩, ⟨"10.0.0.2", 167772162, false⟩], 10000, 4⟩

/-- Parse result of `-gw bogus -d 10.0.0.1`: the invalid gateway literal is
pushed as a placeholder node. -/
def stInvalidGw : ParseState :=
  ⟨false, ⟨"10.0.0.1", 167772161, false⟩, [⟨"", 0, false⟩], 10000, 30⟩

/-- Run result of `-d 10.0.0.1` against `netAlways`. -/
def rDestOnly : RunResult :=
  ⟨0, ⟨"10.0.0.1", 167772161, true⟩, [], [Event.probe 30, Event.closeHandle]⟩

/-- Run result of `-d 10.0.0.1` against `netSilent`. -/
def rTimeout : RunResult :=
  ⟨4, ⟨"10.0.0.1", 167772161, false⟩, [], [Event.probe 30, Event.closeHandle]⟩

/-- Run result of `argsTwoGw4` against `netHop3`. -/
def rHop3 : RunResult :=
  ⟨0, ⟨"10.0.0.1", 167772161, true⟩,
    [⟨"10.0.0.2", 167772162, true⟩, ⟨"10.0.0.2", 167772162, true⟩],
    [Event.probe 4, Event.probe 1, Event.probe 2, Event.probe 3, Event.closeHandle]⟩

lemma observe_length (gws : List NETWORK_NODE) (a : Nat) :
    (observe gws a).length = gws.length := List.length_map _ _

lemma observe_getElem (gws : List NETWORK_NODE) (a : Nat) (i : Nat) :
    (observe gws a)[i]? =
      (gws[i]?).map (fun g => if g.ip = a then { g with replied := true } else g) := by
  simp [observe]

lemma sweepStep_length (net : Int → Option Nat) (gws : List NETWORK_NODE) (t : Int) :
    (sweepStep net gws t).length = gws.length := by
  cases hnt : net t <;> simp [sweepStep, hnt, observe_length]

lemma sweepStep_getElem (net : Int → Option Nat) (gws : List NETWORK_NODE) (t : Int)
    (i : Nat) (g : NETWORK_NODE) (hg : gws[i]? = some g) :
    (sweepStep net gws t)[i]? = some ⟨g.hostname, g.ip, g.replied || hitAt net g.ip t⟩ := by
  cases hnt : net t with
  | none => simp [sweepStep, hnt, hitAt, hg]
  | some a =>
    rcases g with ⟨hn, ip, b⟩
    by_cases hip : ip = a
    · simp [sweepStep, hnt, hitAt, observe_getElem, hg, hip]
    · simp [sweepStep, hnt, hitAt, observe_getElem, hg, hip]

lemma sweepFold_getElem (net : Int → Option Nat) :
    ∀ (ttls : List Int) (gws : List NETWORK_NODE) (i : Nat) (g : NETWORK_NODE),
      gws[i]? = some g →
      (ttls.foldl (sweepStep net) gws)[i]? =
        some ⟨g.hostname, g.ip, g.replied || ttls.any (hitAt net g.ip)⟩
  | [], gws, i, g, hg => by rcases g with ⟨hn, ip, b⟩; simpa using hg
  | t :: ts, gws, i, g, hg => by
    have h2 := sweepFold_getElem net ts (sweepStep net gws t) i
      ⟨g.hostname, g.ip, g.replied || hitAt net g.ip t⟩ (sweepStep_getElem net gws t i g hg)
    simpa [Bool.or_assoc] using h2

lemma sweepFold_length (net : Int → Option Nat) :
    ∀ (ttls : List Int) (gws : List NETWORK_NODE),
      (ttls.foldl (sweepStep net) gws).length = gws.length
  | [], _ => rfl
  | t :: ts, gws => by
    rw [List.foldl_cons, sweepFold_length net ts, sweepStep_length]

lemma parseLoop_nil (st : ParseState) : parseLoop [] st = some st := rfl

lemma parseLoop_cons (arg : String) (rest : List String) (st : ParseState) :
    parseLoop (arg :: rest) st =
      (if arg = "-v" then parseLoop rest { st with verbose := true }
      else if arg = "-help" then parseLoop rest st
      else if arg = "-d" then
        match rest with
        | [] => none
        | v :: rest2 => parseLoop rest2 (applyDest st v)
      else if arg = "-gw" then
        match rest with
        | [] => none
        | v :: rest2 => parseLoop rest2 (applyGw st v)
      else if arg = "-ttl" then
        match rest with
        | [] => none
        | [_] => none
        | _ :: w :: rest3 => parseLoop (w :: rest3) { st with max_hops := atoi w }
      else if arg = "-timeout" then
        match rest with
        | [] => none
        | [_] => none
        | _ :: w :: rest3 => parseLoop (w :: rest3) { st with timeout := atoi w }
      else parseLoop rest st) := by
  cases rest with
  | nil => rfl
  | cons v rest2 =>
    cases rest2 with
    | nil => rfl
    | cons w rest3 => rfl

lemma applyDest_replied (st : ParseState) (v : String)
    (hd : st.destination.replied = false) :
    (applyDest st v).destination.replied = false := by
  unfold applyDest
  cases inet_pton v <;> simp [hd]

lemma applyDest_gateways (st : ParseState) (v : String) :
    (applyDest st v).gateways = st.gateways := by
  unfold applyDest
  cases inet_pton v <;> rfl

lemma applyGw_dest (st : ParseState) (v : String) :
    (applyGw st v).destination = st.destination := by
  unfold applyGw
  cases inet_pton v <;> rfl

lemma applyGw_length (st : ParseState) (v : String) :
    (applyGw st v).gateways.length = st.gateways.length + 1 := by
  unfold applyGw
  cases inet_pton v <;> simp

lemma applyGw_replied (st : ParseState) (v : String)
    (hg : ∀ g ∈ st.gateways, g.replied = false) :
    ∀ g ∈ (applyGw st v).gateways, g.replied = false := by
  unfold applyGw
  cases inet_pton v with
  | none =>
    intro g hm
    rcases List.mem_append.mp hm with hm2 | hm2
    · exact hg g hm2
    · rw [List.mem_singleton.mp hm2]
  | some ip =>
    intro g hm
    rcases List.mem_append.mp hm with hm2 | hm2
    · exact hg g hm2
    · rw [List.mem_singleton.mp hm2]

lemma parseLoop_replied_aux :
    ∀ (n : Nat) (args : List String) (st st' : ParseState), args.length ≤ n →
      parseLoop args st = some st' →
      st.destination.replied = false → (∀ g ∈ st.gateways, g.replied = false) →
      st'.destination.replied = false ∧ ∀ g ∈ st'.gateways, g.replied = false := by
  intro n
  induction n with
  | zero =>
    intro args st st' hlen h hd hg
    have hargs : args = [] := List.length_eq_zero.mp (Nat.le_zero.mp hlen)
    subst hargs
    rw [parseLoop_nil, Option.some.injEq] at h
    subst h
    exact ⟨hd, hg⟩
  | succ m ih =>
    intro args st st' hlen h hd hg
    cases args with
    | nil =>
      rw [parseLoop_nil, Option.some.injEq] at h
      subst h
      exact ⟨hd, hg⟩
    | cons arg rest =>
      rw [parseLoop_cons] at h
      simp only [List.length_cons] at hlen
      by_cases hv : arg = "-v"
      · rw [if_pos hv] at h
        exact ih rest _ st' (by omega) h hd hg
      rw [if_neg hv] at h
      by_cases hhelp : arg = "-help"
      · rw [if_pos hhelp] at h
        exact ih rest _ st' (by omega) h hd hg
      rw [if_neg hhelp] at h
      by_cases hdd : arg = "-d"
      · rw [if_pos hdd] at h
        cases rest with
        | nil => exact absurd h (by simp)
        | cons v rest2 =>
          simp only [List.length_cons] at hlen
          refine ih rest2 _ st' (by omega) h (applyDest_replied st v hd) ?_
          rw [applyDest_gateways]
          exact hg
      rw [if_neg hdd] at h
      by_cases hgw : arg = "-gw"
      · rw [if_pos hgw] at h
        cases rest with
        | nil => exact absurd h (by simp)
        | cons v rest2 =>
          simp only [List.length_cons] at hlen
          refine ih rest2 _ st' (by omega) h ?_ (applyGw_replied st v hg)
          rw [applyGw_dest]
          exact hd
      rw [if_neg hgw] at h
      by_cases httl : arg = "-ttl"
      · rw [if_pos httl] at h
        cases rest with
        | nil => exact absurd h (by simp)
        | cons v rest2 =>
          simp only [List.length_cons] at hlen
          cases rest2 with
          | nil => exact absurd h (by simp)
          | cons w rest3 =>
            simp only [List.length_cons] at hlen
            exact ih (w :: rest3) _ st' (by simp only [List.length_cons]; omega) h hd hg
      rw [if_neg httl] at h
      by_cases htmo : arg = "-timeout"
      · rw [if_pos htmo] at h
        cases rest with
        | nil => exact absurd h (by simp)
        | cons v rest2 =>
          simp only [List.length_cons] at hlen
          cases rest2 with
          | nil => exact absurd h (by simp)
          | cons w rest3 =>
            simp only [List.length_cons] at hlen
            exact ih (w :: rest3) _ st' (by simp only [List.length_cons]; omega) h hd hg
      rw [if_neg htmo] at h
      exact ih rest _ st' (by omega) h hd hg

lemma parseArgs_replied (args : List String) (st : ParseState)
    (h : parseArgs args = some st) :
    st.destination.replied = false ∧ ∀ g ∈ st.gateways, g.replied = false := by
  refine parseLoop_replied_aux args.length args _ st le_rfl h rfl ?_
  intro g hm
  simp at hm

lemma gwFlagCount_nil : gwFlagCount [] = 0 := rfl

lemma gwFlagCount_cons (arg : String) (rest : List String) :
    gwFlagCount (arg :: rest) =
      (if arg = "-v" then gwFlagCount rest
      else if arg = "-help" then gwFlagCount rest
      else if arg = "-d" then
        match rest with
        | [] => 0
        | _ :: rest2 => gwFlagCount rest2
      else if arg = "-gw" then
        match rest with
        | [] => 0
        | _ :: rest2 => gwFlagCount rest2 + 1
      else if arg = "-ttl" then
        match rest with
        | [] => 0
        | _ :: rest2 => gwFlagCount rest2
      else if arg = "-timeout" then
        match rest with
        | [] => 0
        | _ :: rest2 => gwFlagCount rest2
      else gwFlagCount rest) := by
  cases rest with
  | nil => rfl
  | cons v rest2 => rfl

lemma parseLoop_gwCount_aux :
    ∀ (n : Nat) (args : List String) (st st' : ParseState), args.length ≤ n →
      parseLoop args st = some st' →
      st'.gateways.length = st.gateways.length + gwFlagCount args := by
  intro n
  induction n with
  | zero =>
    intro args st st' hlen h
    have hargs : args = [] := List.length_eq_zero.mp (Nat.le_zero.mp hlen)
    subst hargs
    rw [parseLoop_nil, Option.some.injEq] at h
    subst h
    simp [gwFlagCount_nil]
  | succ m ih =>
    intro args st st' hlen h
    cases args with
    | nil =>
      rw [parseLoop_nil, Option.some.injEq] at h
      subst h
      simp [gwFlagCount_nil]
    | cons arg rest =>
      rw [parseLoop_cons] at h
      rw [gwFlagCount_cons]
      simp only [List.length_cons] at hlen
      by_cases hv : arg = "-v"
      · rw [if_pos hv] at h
        rw [if_pos hv]
        exact ih rest { st with verbose := true } st' (by omega) h
      rw [if_neg hv] at h
      rw [if_neg hv]
      by_cases hhelp : arg = "-help"
      · rw [if_pos hhelp] at h
        rw [if_pos hhelp]
        exact ih rest st st' (by omega) h
      rw [if_neg hhelp] at h
      rw [if_neg hhelp]
      by_cases hdd : arg = "-d"
      · rw [if_pos hdd] at h
        rw [if_pos hdd]
        cases rest with
        | nil => exact absurd h (by simp)
        | cons v rest2 =>
          simp only [List.length_cons] at hlen
          have h2 := ih rest2 _ st' (by omega) h
          rw [applyDest_gateways] at h2
          simpa using h2
      rw [if_neg hdd] at h
      rw [if_neg hdd]
      by_cases hgw : arg = "-gw"
      · rw [if_pos hgw] at h
        rw [if_pos hgw]
        cases rest with
        | nil => exact absurd h (by simp)
        | cons v rest2 =>
          simp only [List.length_cons] at hlen
          have h2 := ih rest2 _ st' (by omega) h
          rw [applyGw_length] at h2
          simp only []
          omega
      rw [if_neg hgw] at h
      rw [if_neg hgw]
      by_cases httl : arg = "-ttl"
      · rw [if_pos httl] at h
        rw [if_pos httl]
        cases rest with
        | nil => exact absurd h (by simp)
        | cons v rest2 =>
          simp only [List.length_cons] at hlen
          cases rest2 with
          | nil => exact absurd h (by simp)
          | cons w rest3 =>
            simp only [List.length_cons] at hlen
            have h2 := ih (w :: rest3) { st with max_hops := atoi w } st'
              (by simp only [List.length_cons]; omega) h
            simpa using h2
      rw [if_neg httl] at h
      rw [if_neg httl]
      by_cases htmo : arg = "-timeout"
      · rw [if_pos htmo] at h
        rw [if_pos htmo]
        cases rest with
        | nil => exact absurd h (by simp)
        | cons v rest2 =>
          simp only [List.length_cons] at hlen
          cases rest2 with
          | nil => exact absurd h (by simp)
          | cons w rest3 =>
            simp only [List.length_cons] at hlen
            have h2 := ih (w :: rest3) { st with timeout := atoi w } st'
              (by simp only [List.length_cons]; omega) h
            simpa using h2
      rw [if_neg htmo] at h
      rw [if_neg htmo]
      exact ih rest st st' (by omega) h

lemma parseArgs_gwCount (args : List String) (st : ParseState)
    (h : parseArgs args = some st) :
    st.gateways.length = gwFlagCount args := by
  have h2 := parseLoop_gwCount_aux args.length args _ st le_rfl h
  simpa using h2

lemma sweepTtls_mem (m t : Int) : t ∈ sweepTtls m ↔ 1 ≤ t ∧ t ≤ m - 1 := by
  rw [sweepTtls]
  constructor
  · intro h
    rcases List.mem_map.mp h with ⟨k, hk, hkt⟩
    rw [List.mem_range] at hk
    omega
  · rintro ⟨h1, h2⟩
    refine List.mem_map.mpr ⟨(t - 1).toNat, ?_, ?_⟩
    · rw [List.mem_range]
      omega
    · omega

lemma sweepTtls_pairwise (m : Int) : (sweepTtls m).Pairwise (fun x y => x < y) := by
  rw [sweepTtls, List.pairwise_map]
  exact (List.pairwise_lt_range _).imp (by intro a b hab; omega)

lemma sweepTtls_one : sweepTtls 1 = [] := rfl

lemma runMain_nil (icmpOk : Bool) (net : Int → Option Nat) :
    runMain [] icmpOk net = some ⟨1, ⟨"", 0, false⟩, [], []⟩ := rfl

lemma runMain_ne_nil (args : List String) (icmpOk : Bool) (net : Int → Option Nat)
    (h : args ≠ []) :
    runMain args icmpOk net = (parseArgs args).map (fun st => runAfterParse st icmpOk net) := by
  rw [runMain, if_neg]
  simpa using h

lemma runAfterParse_noDest (st : ParseState) (icmpOk : Bool) (net : Int → Option Nat)
    (h : st.destination.hostname = "") :
    runAfterParse st icmpOk net = ⟨2, st.destination, st.gateways, []⟩ := by
  simp [runAfterParse, h]

lemma runAfterParse_noIcmp (st : ParseState) (net : Int → Option Nat)
    (h : st.destination.hostname ≠ "") :
    runAfterParse st false net = ⟨3, st.destination, st.gateways, []⟩ := by
  simp [runAfterParse, h]

lemma runAfterParse_noReply (st : ParseState) (net : Int → Option Nat)
    (h1 : st.destination.hostname ≠ "") (h2 : net st.max_hops = none) :
    runAfterParse st true net =
      ⟨4, st.destination, st.gateways, [Event.probe st.max_hops, Event.closeHandle]⟩ := by
  simp [runAfterParse, h1, h2]

lemma runAfterParse_ok_nogw (st : ParseState) (net : Int → Option Nat) (a : Nat)
    (h1 : st.destination.hostname ≠ "") (h2 : net st.max_hops = some a)
    (h3 : st.gateways = []) :
    runAfterParse st true net =
      ⟨0, { st.destination with replied := true }, st.gateways,
        [Event.probe st.max_hops, Event.closeHandle]⟩ := by
  simp [runAfterParse, h1, h2, h3]

lemma runAfterParse_ok_gw (st : ParseState) (net : Int → Option Nat) (a : Nat)
    (h1 : st.destination.hostname ≠ "") (h2 : net st.max_hops = some a)
    (h3 : st.gateways ≠ []) :
    runAfterParse st true net =
      ⟨0, { st.destination with replied := true },
        (sweepTtls st.max_hops).foldl (sweepStep net) st.gateways,
        Event.probe st.max_hops :: (sweepTtls st.max_hops).map Event.probe
          ++ [Event.closeHandle]⟩ := by
  have h4 : ¬ st.gateways.length = 0 := by
    simpa [List.length_eq_zero] using h3
  simp [runAfterParse, h1, h2, h4]

example : inet_pton "10.0.0.1" = some 167772161 := by decide
example : inet_pton "bogus" = none := by decide
example : inet_pton "10.0.0.01" = none := by decide
example : inet_pton "256.0.0.1" = none := by decide
example : atoi "5" = 5 := by decide
example : atoi "-d" = 0 := by decide
example : parseArgs ["-d"] = none := by decide
example : (parseArgs ["-d", "10.0.0.1"]).map (fun st => st.destination) =
    some ⟨"10.0.0.1", 167772161, false⟩ := by decide
example : (parseArgs ["-ttl", "5", "-d", "10.0.0.1"]).map (fun st => st.max_hops) =
    some 0 := by decide

lemma observe_cons (g : NETWORK_NODE) (gs : List NETWORK_NODE) (a : Nat) :
    observe (g :: gs) a = (if g.ip = a then { g with replied := true } else g) :: observe gs a :=
  rfl

lemma observe_idem (gws : List NETWORK_NODE) (a : Nat) :
    observe (observe gws a) a = observe gws a := by
  induction gws with
  | nil => rfl
  | cons g gs ih =>
    rw [observe_cons]
    by_cases h : g.ip = a
    · rw [if_pos h, observe_cons, if_pos (show ({ g with replied := true } : NETWORK_NODE).ip = a from h), ih]
    · rw [if_neg h, observe_cons, if_neg h, ih]

lemma count_close_map_probe (ttls : List Int) :
    (ttls.map Event.probe).count Event.closeHandle = 0 := by
  rw [List.count_eq_zero]
  intro hmem
  rcases List.mem_map.mp hmem with ⟨t, _, hteq⟩
  exact Event.noConfusion hteq

/-- C1: the claim says `-ttl n` sets max_hops to the integer value of the
token immediately following the flag, and `-timeout n` the timeout likewise
(defaults 30 and 10000). The code increments `a` before reading
`args[a + 1]`, so the assigned value comes from the token one past the
flag's argument: `-ttl 5 -d 10.0.0.1` yields `max_hops = atoi "-d" = 0`, not
5, and `-timeout 500 -d 10.0.0.1` yields timeout 0, not 500; this
contradicts the program's own help text and its verbose output, which
display the immediately following token. The defaults are as claimed. -/
theorem C1_ttl_timeout_offbyone :
    (parseArgs ["-ttl", "5", "-d", "10.0.0.1"]).map (fun st => (st.max_hops, st.timeout))
        = some (0, 10000) ∧
    (parseArgs ["-timeout", "500", "-d", "10.0.0.1"]).map (fun st => (st.max_hops, st.timeout))
        = some (30, 0) ∧
    (parseArgs ["-d", "10.0.0.1"]).map (fun st => (st.max_hops, st.timeout))
        = some (30, 10000) := by
  refine ⟨by decide, by decide, by decide⟩

/-- C2 counterexample: a `-gw` whose argument is not a valid IPv4 literal
still appends a node (with empty identifier and zero address) — the claim
that nothing is appended is false: `push_back(node)` is outside the
`InetPtonA` success test. -/
theorem C2_counterexample :
    (parseArgs ["-gw", "bogus", "-d", "10.0.0.1"]).map (fun st => st.gateways)
      = some [⟨"", 0, false⟩] := by decide

/-- C2 (amended): every `-gw` flag processed with a following token appends
exactly one gateway node whether or not the literal is valid (an invalid
literal appends the placeholder `⟨"", 0, false⟩`), so the reported gateway
lines correspond to all processed `-gw` flags, not only the valid ones. -/
theorem C2_gw_always_appended (args : List String) (st : ParseState)
    (h : parseArgs args = some st) :
    st.gateways.length = gwFlagCount args :=
  parseArgs_gwCount args st h

/-- C2 witness: the run `-gw bogus -d 10.0.0.1` ends with exactly one
gateway node, the count of processed `-gw` flags. -/
theorem C2_gw_always_appended_witness :
    stInvalidGw.gateways.length = gwFlagCount ["-gw", "bogus", "-d", "10.0.0.1"] :=
  C2_gw_always_appended ["-gw", "bogus", "-d", "10.0.0.1"] stInvalidGw (by decide)

/-- C3 counterexample: destination 10.0.0.1 is also configured as a gateway;
the reachability probe at TTL 30 is answered by 10.0.0.1 itself and every
sweep probe times out. The claim says the gateway equal to the final
full-route responder address is marked replied; the code never feeds the
reachability reply's address to the matcher, so it stays unreplied. -/
theorem C3_counterexample :
    (runMain ["-d", "10.0.0.1", "-gw", "10.0.0.1"] true netOnlyFinal).map
        (fun r => (r.exitCode, r.destination.replied, r.gateways))
      = some (0, true, [⟨"10.0.0.1", 167772161, false⟩]) := by decide

/-- C3 (amended): when the reachability probe succeeds, the destination's
replied flag is set true, but the responder address of that reply is not
passed to the gateway matcher: each gateway's final replied flag is its
initial flag or-ed with the sweep hits at TTLs `1 .. max_hops - 1` only —
in particular it does not depend on the reachability responder address. -/
theorem C3_reachability_not_matched (args : List String) (st : ParseState)
    (net : Int → Option Nat) (a : Nat) (r : RunResult) (i : Nat) (g : NETWORK_NODE)
    (hargs : args ≠ []) (hp : parseArgs args = some st)
    (hd : st.destination.hostname ≠ "") (hn : net st.max_hops = some a)
    (hr : runMain args true net = some r) (hg : st.gateways[i]? = some g) :
    r.destination.replied = true ∧
    r.gateways[i]? =
      some ⟨g.hostname, g.ip, g.replied || (sweepTtls st.max_hops).any (hitAt net g.ip)⟩ := by
  have hne : st.gateways ≠ [] := by
    intro hnil
    rw [hnil] at hg
    simp at hg
  rw [runMain_ne_nil args true net hargs, hp, Option.map_some'] at hr
  rw [runAfterParse_ok_gw st net a hd hn hne] at hr
  obtain rfl := Option.some.inj hr
  exact ⟨rfl, sweepFold_getElem net (sweepTtls st.max_hops) st.gateways i g hg⟩

/-- C3 witness: in the `argsTwoGw4`/`netHop3` run the destination is marked
replied and the first gateway's flag equals its sweep-hit disjunction. -/
theorem C3_reachability_not_matched_witness :
    rHop3.destination.replied = true ∧
    rHop3.gateways[0]? =
      some ⟨"10.0.0.2", 167772162,
        false || (sweepTtls stTwoGw4.max_hops).any (hitAt netHop3 167772162)⟩ :=
  C3_reachability_not_matched argsTwoGw4 stTwoGw4 netHop3 167772161 rHop3 0
    ⟨"10.0.0.2", 167772162, false⟩ (by decide) (by decide) (by decide) (by decide)
    (by decide) (by decide)

/-- C4: the exit code is 1 when no arguments are given, 2 when no
destination was resolved by parsing, 3 when the ICMP handle cannot be
created, 4 when the reachability probe gets no reply, and 0 when the run
completes and the report is printed. -/
theorem C4_exit_codes (args : List String) (st : ParseState) (icmpOk : Bool)
    (net : Int → Option Nat) (r : RunResult)
    (hp : parseArgs args = some st) (hr : runMain args icmpOk net = some r) :
    (args = [] → r.exitCode = 1) ∧
    (args ≠ [] → st.destination.hostname = "" → r.exitCode = 2) ∧
    (args ≠ [] → st.destination.hostname ≠ "" → icmpOk = false → r.exitCode = 3) ∧
    (args ≠ [] → st.destination.hostname ≠ "" → icmpOk = true →
      net st.max_hops = none → r.exitCode = 4) ∧
    (args ≠ [] → st.destination.hostname ≠ "" → icmpOk = true →
      net st.max_hops ≠ none → r.exitCode = 0) := by
  refine ⟨?_, ?_, ?_, ?_, ?_⟩
  · intro h0
    subst h0
    rw [runMain_nil] at hr
    obtain rfl := Option.some.inj hr
    rfl
  · intro hargs hdd
    rw [runMain_ne_nil args icmpOk net hargs, hp, Option.map_some'] at hr
    obtain rfl := Option.some.inj hr
    rw [runAfterParse_noDest st icmpOk net hdd]
  · intro hargs hdn hic
    subst hic
    rw [runMain_ne_nil args false net hargs, hp, Option.map_some'] at hr
    obtain rfl := Option.some.inj hr
    rw [runAfterParse_noIcmp st net hdn]
  · intro hargs hdn hic hnone
    subst hic
    rw [runMain_ne_nil args true net hargs, hp, Option.map_some'] at hr
    obtain rfl := Option.some.inj hr
    rw [runAfterParse_noReply st net hdn hnone]
  · intro hargs hdn hic hsome
    subst hic
    rw [runMain_ne_nil args true net hargs, hp, Option.map_some'] at hr
    obtain rfl := Option.some.inj hr
    obtain ⟨a, ha⟩ := Option.ne_none_iff_exists'.mp hsome
    by_cases hgw : st.gateways = []
    · rw [runAfterParse_ok_nogw st net a hdn ha hgw]
    · rw [runAfterParse_ok_gw st net a hdn ha hgw]

/-- C4 witness: the `-d 10.0.0.1` run against an always-replying network
exits 0. -/
theorem C4_exit_codes_witness : rDestOnly.exitCode = 0 :=
  (C4_exit_codes ["-d", "10.0.0.1"] stDestOnly true netAlways rDestOnly
      (by decide) (by decide)).2.2.2.2 (by decide) (by decide) rfl (by decide)

/-- C5: when the reachability probe times out, the run exits 4, the only
probe ever sent is the reachability probe at `ttl = max_hops` (no sweep
probe), and every gateway is still unreplied — whatever the gateway
configuration. -/
theorem C5_timeout_no_sweep (args : List String) (st : ParseState)
    (net : Int → Option Nat) (r : RunResult)
    (hargs : args ≠ []) (hp : parseArgs args = some st)
    (hd : st.destination.hostname ≠ "") (hn : net st.max_hops = none)
    (hr : runMain args true net = some r) :
    r.exitCode = 4 ∧
    r.events = [Event.probe st.max_hops, Event.closeHandle] ∧
    (∀ t, Event.probe t ∈ r.events → t = st.max_hops) ∧
    (∀ g ∈ r.gateways, g.replied = false) := by
  rw [runMain_ne_nil args true net hargs, hp, Option.map_some'] at hr
  rw [runAfterParse_noReply st net hd hn] at hr
  obtain rfl := Option.some.inj hr
  refine ⟨rfl, rfl, ?_, ?_⟩
  · intro t ht
    simp only [List.mem_cons, List.mem_singleton] at ht
    rcases ht with ht | ht | ht
    · exact (Event.probe.injEq t st.max_hops).mp ht
    · exact Event.noConfusion ht
    · exact absurd ht (List.not_mem_nil _)
  · intro g hgm
    exact (parseArgs_replied args st hp).2 g hgm

/-- C5 witness: the `-d 10.0.0.1` run against a silent network exits 4. -/
theorem C5_timeout_no_sweep_witness : rTimeout.exitCode = 4 :=
  (C5_timeout_no_sweep ["-d", "10.0.0.1"] stDestOnly netSilent rTimeout
      (by decide) (by decide) (by decide) (by decide) (by decide)).1

/-- C6: a run that enters the hop sweep probes exactly at the TTLs
`1 .. max_hops - 1`, strictly increasing; a TTL belongs to the sweep iff it
lies in that range, and `max_hops = 1` gives an empty sweep (only the
reachability probe is sent). -/
theorem C6_sweep_ttls (args : List String) (st : ParseState)
    (net : Int → Option Nat) (a : Nat) (r : RunResult)
    (hargs : args ≠ []) (hp : parseArgs args = some st)
    (hd : st.destination.hostname ≠ "") (hgw : st.gateways ≠ [])
    (hn : net st.max_hops = some a)
    (hr : runMain args true net = some r) :
    r.events = Event.probe st.max_hops :: (sweepTtls st.max_hops).map Event.probe
        ++ [Event.closeHandle] ∧
    (sweepTtls st.max_hops).Pairwise (fun x y => x < y) ∧
    (∀ t, t ∈ sweepTtls st.max_hops ↔ 1 ≤ t ∧ t ≤ st.max_hops - 1) ∧
    (st.max_hops = 1 → sweepTtls st.max_hops = []) := by
  rw [runMain_ne_nil args true net hargs, hp, Option.map_some'] at hr
  rw [runAfterParse_ok_gw st net a hd hn hgw] at hr
  obtain rfl := Option.some.inj hr
  refine ⟨rfl, sweepTtls_pairwise _, fun t => sweepTtls_mem _ t, fun h1 => ?_⟩
  rw [h1]
  exact sweepTtls_one

/-- C6 witness: the `argsTwoGw4`/`netHop3` run (max_hops 4) probes at TTL 4
then sweeps 1, 2, 3. -/
theorem C6_sweep_ttls_witness :
    rHop3.events = Event.probe stTwoGw4.max_hops
        :: (sweepTtls stTwoGw4.max_hops).map Event.probe ++ [Event.closeHandle] :=
  (C6_sweep_ttls argsTwoGw4 stTwoGw4 netHop3 167772161 rHop3
      (by decide) (by decide) (by decide) (by decide) (by decide) (by decide)).1

/-- C7: every node's replied flag starts false after parsing (destination
and all gateways); one sweep step rewrites a gateway's flag to
`old || hit`, so a set flag is never cleared (monotone false→true), and
re-observing the same responder address is idempotent — the gateway list is
unchanged by a second observation. -/
theorem C7_replied_monotone (args : List String) (st : ParseState)
    (net : Int → Option Nat) (gws : List NETWORK_NODE) (t : Int) (a : Nat)
    (i : Nat) (g : NETWORK_NODE)
    (hp : parseArgs args = some st) (hg : gws[i]? = some g) :
    st.destination.replied = false ∧
    (∀ x ∈ st.gateways, x.replied = false) ∧
    (sweepStep net gws t)[i]? = some ⟨g.hostname, g.ip, g.replied || hitAt net g.ip t⟩ ∧
    (g.replied = true → (sweepStep net gws t)[i]? = some ⟨g.hostname, g.ip, true⟩) ∧
    observe (observe gws a) a = observe gws a := by
  obtain ⟨hdst, hgws⟩ := parseArgs_replied args st hp
  have hchar := sweepStep_getElem net gws t i g hg
  refine ⟨hdst, hgws, hchar, ?_, observe_idem gws a⟩
  intro hrep
  rw [hrep, Bool.true_or] at hchar
  exact hchar

/-- C7 witness: after parsing `-d 10.0.0.1` the destination's flag is false,
and a sweep step keeps an already-replied gateway replied. -/
theorem C7_replied_monotone_witness :
    (sweepStep netSilent [⟨"10.0.0.2", 167772162, true⟩] 1)[0]? =
      some ⟨"10.0.0.2", 167772162, true⟩ :=
  (C7_replied_monotone ["-d", "10.0.0.1"] stDestOnly netSilent
      [⟨"10.0.0.2", 167772162, true⟩] 1 5 0 ⟨"10.0.0.2", 167772162, true⟩
      (by decide) (by decide)).2.2.2.1 rfl

/-- C8: if some sweep probe is answered from address `addr`, then every
configured gateway whose 32-bit address equals `addr` ends the run marked
replied — each list entry independently, so duplicate `-gw` entries with the
same address are all reported replied. -/
theorem C8_all_matching_marked (args : List String) (st : ParseState)
    (net : Int → Option Nat) (a addr : Nat) (t : Int) (r : RunResult)
    (i : Nat) (g : NETWORK_NODE)
    (hargs : args ≠ []) (hp : parseArgs args = some st)
    (hd : st.destination.hostname ≠ "") (hn : net st.max_hops = some a)
    (hr : runMain args true net = some r)
    (ht : t ∈ sweepTtls st.max_hops) (haddr : net t = some addr)
    (hg : st.gateways[i]? = some g) (hip : g.ip = addr) :
    r.gateways[i]? = some ⟨g.hostname, g.ip, true⟩ := by
  have hne : st.gateways ≠ [] := by
    intro hnil
    rw [hnil] at hg
    simp at hg
  rw [runMain_ne_nil args true net hargs, hp, Option.map_some'] at hr
  rw [runAfterParse_ok_gw st net a hd hn hne] at hr
  obtain rfl := Option.some.inj hr
  have hchar := sweepFold_getElem net (sweepTtls st.max_hops) st.gateways i g hg
  have hany : (sweepTtls st.max_hops).any (hitAt net g.ip) = true := by
    refine List.any_eq_true.mpr ⟨t, ht, ?_⟩
    simp [hitAt, haddr, hip]
  rw [hany, Bool.or_true] at hchar
  exact hchar

/-- C8 witness: in the `argsTwoGw4`/`netHop3` run the duplicate second
gateway entry 10.0.0.2 is also marked replied (hop 3 answered as
10.0.0.2). -/
theorem C8_all_matching_marked_witness :
    rHop3.gateways[1]? = some ⟨"10.0.0.2", 167772162, true⟩ :=
  C8_all_matching_marked argsTwoGw4 stTwoGw4 netHop3 167772161 167772162 3 rHop3 1
    ⟨"10.0.0.2", 167772162, false⟩ (by decide) (by decide) (by decide) (by decide)
    (by decide) (by decide) (by decide) (by decide) (by decide)

/-- C9: on every terminating path that reaches a successful ICMP handle
creation (exit codes 0 and 4) the handle-close event occurs exactly once,
as the last event before returning; on the paths that never create the
handle (exit codes 1, 2 and 3) no close event occurs. -/
theorem C9_handle_closed_once (args : List String) (icmpOk : Bool)
    (net : Int → Option Nat) (r : RunResult)
    (hr : runMain args icmpOk net = some r) :
    (r.exitCode = 0 ∨ r.exitCode = 4 →
      r.events.count Event.closeHandle = 1 ∧
      r.events.getLast? = some Event.closeHandle) ∧
    (r.exitCode = 1 ∨ r.exitCode = 2 ∨ r.exitCode = 3 →
      r.events.count Event.closeHandle = 0) := by
  by_cases hargs : args = []
  · subst hargs
    rw [runMain_nil] at hr
    obtain rfl := Option.some.inj hr
    decide
  · rw [runMain_ne_nil args icmpOk net hargs] at hr
    cases hps : parseArgs args with
    | none =>
      rw [hps] at hr
      exact absurd hr (by simp)
    | some st =>
      rw [hps, Option.map_some'] at hr
      obtain rfl := Option.some.inj hr
      by_cases hdd : st.destination.hostname = ""
      · rw [runAfterParse_noDest st icmpOk net hdd]
        constructor
        · intro h
          simp at h
        · intro _
          rfl
      · cases icmpOk with
        | false =>
          rw [runAfterParse_noIcmp st net hdd]
          constructor
          · intro h
            simp at h
          · intro _
            rfl
        | true =>
          cases hnt : net st.max_hops with
          | none =>
            rw [runAfterParse_noReply st net hdd hnt]
            constructor
            · intro _
              refine ⟨?_, rfl⟩
              simp [List.count_cons]
            · intro h
              simp at h
          | some a =>
            by_cases hgw : st.gateways = []
            · rw [runAfterParse_ok_nogw st net a hdd hnt hgw]
              constructor
              · intro _
                refine ⟨?_, rfl⟩
                simp [List.count_cons]
              · intro h
                simp at h
            · rw [runAfterParse_ok_gw st net a hdd hnt hgw]
              constructor
              · intro _
                refine ⟨?_, ?_⟩
                · show (Event.probe st.max_hops ::
                      ((sweepTtls st.max_hops).map Event.probe ++ [Event.closeHandle])).count
                        Event.closeHandle = 1
                  simp [List.count_cons, List.count_append, count_close_map_probe]
                · show (Event.probe st.max_hops ::
                      ((sweepTtls st.max_hops).map Event.probe ++ [Event.closeHandle])).getLast?
                        = some Event.closeHandle
                  rw [← List.cons_append, List.getLast?_concat]
              · intro h
                simp at h

/-- C9 witness: the completed `-d 10.0.0.1` run closes the handle exactly
once, as its last event. -/
theorem C9_handle_closed_once_witness :
    rDestOnly.events.count Event.closeHandle = 1 ∧
    rDestOnly.events.getLast? = some Event.closeHandle :=
  (C9_handle_closed_once ["-d", "10.0.0.1"] true netAlways rDestOnly
      (by decide)).1 (Or.inl rfl)

/-- C10: the claim says the argument loop never reads outside the argument
vector. In the code every value-taking flag reads `args[a + 1]` without a
bound check, so a trailing `-d` or `-gw` reads one past the end, and
`-ttl`/`-timeout` additionally read `args[a + 1]` after `a++`, two past the
flag — out of bounds even when the flag has one following token. The model
returns `none` exactly on such an out-of-bounds access. -/
theorem C10_oob_reads :
    parseArgs ["-d"] = none ∧
    parseArgs ["-gw"] = none ∧
    parseArgs ["-d", "10.0.0.1", "-gw"] = none ∧
    parseArgs ["-ttl"] = none ∧
    parseArgs ["-ttl", "5"] = none ∧
    parseArgs ["-timeout"] = none ∧
    parseArgs ["-timeout", "9"] = none := by decide

example : parseArgs ["-gw", "bogus", "-d", "10.0.0.1"] = some stInvalidGw := by decide
example : parseArgs argsTwoGw4 = some stTwoGw4 := by decide
example : runMain ["-d", "10.0.0.1"] true netAlways = some rDestOnly := by decide
example : runMain ["-d", "10.0.0.1"] true netSilent = some rTimeout := by decide
example : runMain argsTwoGw4 true netHop3 = some rHop3 := by decide

end Routecheck
